import Mathlib

/-!
Verification of the sales-analysis pipeline
(`notebooks/data_processing.py`, `notebooks/analyze_products.py`,
`notebooks/customer_analysis.py`).

Rows are shallowly embedded as Lean structures; the dataframe is a list of
rows.  Monetary amounts are rationals, quantities are integers, timestamps
are integers (day-resolution time-line).  A raw row carries its timestamp as
an `Option Int`: `none` stands for a value the date-time parser rejects
(`pd.to_datetime` raising).  Sorting of aggregate tables is modelled with
Mathlib's stable insertion sort; the spec fixes no tie-break, and no claim
depends on the order of ties.
-/

/-- A raw input row, before cleaning.  `description` and `customerID` are
nullable, and `invoiceDate` is `none` when the timestamp is malformed. -/
structure RawRow where
  invoiceNo : String
  stockCode : String
  description : Option String
  quantity : Int
  invoiceDate : Option Int
  unitPrice : Rat
  customerID : Option String
  country : String
deriving DecidableEq

/-- A cleaned row: sentinels filled in, timestamp parsed. -/
structure CleanRow where
  invoiceNo : String
  stockCode : String
  description : String
  quantity : Int
  invoiceDate : Int
  unitPrice : Rat
  customerID : String
  country : String
deriving DecidableEq

/-- Per-row part of `clean_data`: fill the missing-value sentinels
(`"Unknown Product"`, `"Unknown"`) and parse the timestamp; `none` when the
timestamp is malformed (the parser raises). -/
def fillRow (r : RawRow) : Option CleanRow :=
  match r.invoiceDate with
  | none => none
  | some d =>
    some { invoiceNo := r.invoiceNo
           stockCode := r.stockCode
           description := r.description.getD "Unknown Product"
           quantity := r.quantity
           invoiceDate := d
           unitPrice := r.unitPrice
           customerID := r.customerID.getD "Unknown"
           country := r.country }

/-- Parse every row; fails (like `pd.to_datetime`) when any timestamp is
malformed. -/
def parseAll : List RawRow → Option (List CleanRow)
  | [] => some []
  | r :: rest =>
    match fillRow r, parseAll rest with
    | some c, some cs => some (c :: cs)
    | _, _ => none

/-- `drop_duplicates` keeping first occurrences, with an accumulator of the
rows already seen. -/
def distinctAux {α : Type} [DecidableEq α] (seen : List α) : List α → List α
  | [] => []
  | a :: rest =>
    if a ∈ seen then distinctAux seen rest
    else a :: distinctAux (a :: seen) rest

/-- `drop_duplicates`: keep the first occurrence of every row. -/
def distinct {α : Type} [DecidableEq α] (l : List α) : List α :=
  distinctAux [] l

/-- `clean_data`: fill sentinels, parse timestamps (failing the run on any
malformed value), then remove exact-duplicate rows. -/
def clean_data (rows : List RawRow) : Option (List CleanRow) :=
  (parseAll rows).map distinct

/-- A row after the quantity split of `handle_quantity_and_price`
(`Return_Qty`, `Sale_Qty` added). -/
structure QtyRow extends CleanRow where
  return_qty : Int
  sale_qty : Int
deriving DecidableEq

/-- A normalized row (`Paid_UnitPrice`, `Is_Free_Item` added). -/
structure NormRow extends QtyRow where
  paid_unit_price : Rat
  is_free_item : String
deriving DecidableEq

/-- `Return_Qty = Quantity.where(Quantity < 0, 0).abs()` and
`Sale_Qty = Quantity.where(Quantity > 0, 0)`. -/
def addQtyCols (r : CleanRow) : QtyRow :=
  { r with
    return_qty := if r.quantity < 0 then -r.quantity else 0
    sale_qty := if r.quantity > 0 then r.quantity else 0 }

/-- `Paid_UnitPrice = UnitPrice.where(UnitPrice > 0, 0)` and
`Is_Free_Item = "Yes" if UnitPrice == 0 else "No"`. -/
def addPriceCols (r : QtyRow) : NormRow :=
  { r with
    paid_unit_price := if r.unitPrice > 0 then r.unitPrice else 0
    is_free_item := if r.unitPrice = 0 then "Yes" else "No" }

/-- `handle_quantity_and_price`: add the quantity columns, drop the rows
with negative unit price, add the price columns. -/
def handle_quantity_and_price (rows : List CleanRow) : List NormRow :=
  (((rows.map addQtyCols).filter
      (fun r => decide (r.unitPrice ≥ 0))).map addPriceCols)

/-- A row with the revenue metrics added. -/
structure RevRow extends NormRow where
  revenue : Rat
  net_revenue : Rat
  total_items : Int
deriving DecidableEq

/-- Per-row arithmetic of `calculate_revenue_metrics`. -/
def calcRow (r : NormRow) : RevRow :=
  { r with
    revenue := (r.sale_qty : Rat) * r.paid_unit_price
    net_revenue := ((r.sale_qty : Rat) - (r.return_qty : Rat)) * r.paid_unit_price
    total_items := r.sale_qty + r.return_qty }

/-- `calculate_revenue_metrics`: pure row-wise arithmetic. -/
def calculate_revenue_metrics (rows : List NormRow) : List RevRow :=
  rows.map calcRow

/-- The fixed non-product stock codes excluded by `analyze_products`. -/
def non_products_list : List String :=
  ["S", "D", "BANK CHARGES", "CRUK", "M", "AMAZONFEE"]

/-- Summed `Net_Revenue` of one stock code
(`df.groupby("StockCode")["Net_Revenue"].sum()` at that code). -/
def sumNetRevenue (rows : List RevRow) (code : String) : Rat :=
  ((rows.filter (fun r => decide (r.stockCode = code))).map
    (fun r => r.net_revenue)).sum

/-- The per-product net-revenue table, sorted descending by value
(`.sort_values(ascending=False)`).  Keys are the distinct stock codes in
first-encounter order; ties keep that order (the spec fixes no tie-break). -/
def revenue_per_product (rows : List RevRow) : List (String × Rat) :=
  List.insertionSort (fun a b : String × Rat => b.2 ≤ a.2)
    ((distinct (rows.map (fun r => r.stockCode))).map
      (fun c => (c, sumNetRevenue rows c)))

/-- The structured result of `analyze_products`. -/
structure ProductResults where
  top_profitable : List (String × Rat)
  top_losses : List (String × Rat)
  profitable_count : Nat
  loss_count : Nat
deriving DecidableEq

/-- `analyze_products`: drop the non-product codes from the
descending-sorted revenue table, split by sign of the summed net revenue,
take the first ten of each side (`.head(10)`), and report both counts. -/
def analyze_products (rows : List RevRow) : ProductResults :=
  let real_products_revenue :=
    (revenue_per_product rows).filter
      (fun p => !(decide (p.1 ∈ non_products_list)))
  let profitable_products :=
    real_products_revenue.filter (fun p => decide (p.2 > 0))
  let loss_products :=
    real_products_revenue.filter (fun p => decide (p.2 < 0))
  { top_profitable := profitable_products.take 10
    top_losses := loss_products.take 10
    profitable_count := profitable_products.length
    loss_count := loss_products.length }

/-- Maximum of a list of timestamps (`Series.max()`); 0 on the empty list,
which no claim reaches. -/
def maxDate : List Int → Int
  | [] => 0
  | [d] => d
  | d :: rest => max d (maxDate rest)

/-- One output row of `analyze_customers`. -/
structure CustomerRow where
  customerID : String
  total_purchases : Nat
  total_net_revenue : Rat
  total_sale_qty : Int
  total_return_qty : Int
  avg_order_value : Rat
  recency_days : Int
  return_rate : Option Rat
  net_qty : Int
  purchase_frequency_monthly : Rat
  customer_value : String
deriving DecidableEq

/-- The rows of one customer. -/
def rowsOfCustomer (rows : List RevRow) (id : String) : List RevRow :=
  rows.filter (fun r => decide (r.customerID = id))

/-- The aggregate row `analyze_customers` builds for one customer:
distinct-invoice count, sums, average order value, recency against the
global maximum timestamp, return rate (`NaN`, i.e. `none`, when the sale
quantity totals to zero), net quantity, monthly purchase frequency, and the
binary value label. -/
def mkCustomerRow (rows : List RevRow) (id : String) : CustomerRow :=
  let myRows := rowsOfCustomer rows id
  let purchases := (distinct (myRows.map (fun r => r.invoiceNo))).length
  let netRev := (myRows.map (fun r => r.net_revenue)).sum
  let saleQty := (myRows.map (fun r => r.sale_qty)).sum
  let returnQty := (myRows.map (fun r => r.return_qty)).sum
  let recency := maxDate (rows.map (fun r => r.invoiceDate)) -
    maxDate (myRows.map (fun r => r.invoiceDate))
  { customerID := id
    total_purchases := purchases
    total_net_revenue := netRev
    total_sale_qty := saleQty
    total_return_qty := returnQty
    avg_order_value := netRev / (purchases : Rat)
    recency_days := recency
    return_rate :=
      if saleQty = 0 then none
      else some ((returnQty : Rat) / (saleQty : Rat))
    net_qty := saleQty - returnQty
    purchase_frequency_monthly :=
      (purchases : Rat) / (((recency : Rat) + 1) / 30)
    customer_value := if netRev > 0 then "Positive" else "Negative" }

/-- `analyze_customers`: one aggregate row per distinct customer, the
`"Unknown"` sentinel customer dropped from the output, sorted descending by
total net revenue. -/
def analyze_customers (rows : List RevRow) : List CustomerRow :=
  List.insertionSort
    (fun a b : CustomerRow => b.total_net_revenue ≤ a.total_net_revenue)
    (((distinct (rows.map (fun r => r.customerID))).map
        (mkCustomerRow rows)).filter
      (fun c => decide (c.customerID ≠ "Unknown")))

/-! ### Lemmas about the helper functions -/

theorem mem_distinctAux {α : Type} [DecidableEq α] (seen l : List α) (x : α) :
    x ∈ distinctAux seen l ↔ x ∈ l ∧ x ∉ seen := by
  induction l generalizing seen with
  | nil => simp [distinctAux]
  | cons a rest ih =>
    simp only [distinctAux, List.mem_cons]
    by_cases ha : a ∈ seen
    · simp only [if_pos ha, ih]
      constructor
      · exact fun h => ⟨Or.inr h.1, h.2⟩
      · rintro ⟨h | h, hs⟩
        · exact absurd (h ▸ ha) hs
        · exact ⟨h, hs⟩
    · simp only [if_neg ha, List.mem_cons, ih]
      constructor
      · rintro (rfl | ⟨h1, h2⟩)
        · exact ⟨Or.inl rfl, ha⟩
        · exact ⟨Or.inr h1, fun hs => h2 (Or.inr hs)⟩
      · rintro ⟨h | h, hs⟩
        · exact Or.inl h
        · rcases eq_or_ne x a with rfl | hxa
          · exact Or.inl rfl
          · refine Or.inr ⟨h, ?_⟩
            intro hc
            rcases hc with h1 | h1
            · exact hxa h1
            · exact hs h1

theorem mem_distinct {α : Type} [DecidableEq α] (l : List α) (x : α) :
    x ∈ distinct l ↔ x ∈ l := by
  simp [distinct, mem_distinctAux]

theorem nodup_distinctAux {α : Type} [DecidableEq α] (seen l : List α) :
    (distinctAux seen l).Nodup := by
  induction l generalizing seen with
  | nil => simp [distinctAux]
  | cons a rest ih =>
    simp only [distinctAux]
    by_cases ha : a ∈ seen
    · simpa [ha] using ih seen
    · simp only [if_neg ha, List.nodup_cons]
      exact ⟨fun hmem => ((mem_distinctAux _ _ _).1 hmem).2
          (List.mem_cons_self a seen),
        ih (a :: seen)⟩

theorem nodup_distinct {α : Type} [DecidableEq α] (l : List α) :
    (distinct l).Nodup :=
  nodup_distinctAux [] l

theorem sublist_distinctAux {α : Type} [DecidableEq α] (seen l : List α) :
    List.Sublist (distinctAux seen l) l := by
  induction l generalizing seen with
  | nil => simp [distinctAux]
  | cons a rest ih =>
    simp only [distinctAux]
    by_cases ha : a ∈ seen
    · simp only [if_pos ha]
      exact (ih seen).cons a
    · simp only [if_neg ha]
      exact (ih (a :: seen)).cons₂ a

theorem sublist_distinct {α : Type} [DecidableEq α] (l : List α) :
    List.Sublist (distinct l) l :=
  sublist_distinctAux [] l

theorem addQtyCols_toCleanRow (r : CleanRow) : (addQtyCols r).toCleanRow = r :=
  rfl

theorem addPriceCols_toQtyRow (q : QtyRow) : (addPriceCols q).toQtyRow = q :=
  rfl

theorem calcRow_toNormRow (n : NormRow) : (calcRow n).toNormRow = n :=
  rfl

/-- Fused form of `handle_quantity_and_price`: filter first, then add all
derived columns row-wise (the derived columns are pure per-row functions, so
computing the quantity columns before or after the price filter is the
same). -/
theorem hq_eq (rows : List CleanRow) :
    handle_quantity_and_price rows =
      (rows.filter (fun r => decide (r.unitPrice ≥ 0))).map
        (fun r => addPriceCols (addQtyCols r)) := by
  unfold handle_quantity_and_price
  rw [List.filter_map, List.map_map]
  rfl

/-- Every output row of `handle_quantity_and_price` is a kept input row with
the derived columns added. -/
theorem hq_shape (rows : List CleanRow) (n : NormRow)
    (hn : n ∈ handle_quantity_and_price rows) :
    ∃ r ∈ rows, r.unitPrice ≥ 0 ∧ n = addPriceCols (addQtyCols r) := by
  rw [hq_eq] at hn
  rcases List.mem_map.mp hn with ⟨r, hr, hrn⟩
  rcases List.mem_filter.mp hr with ⟨hrin, hp⟩
  exact ⟨r, hrin, of_decide_eq_true hp, hrn.symm⟩

/-- Every output row of `analyze_customers` is the aggregate of one of the
distinct customers of the input, and is not the Unknown sentinel. -/
theorem customers_shape (rows : List RevRow) (c : CustomerRow)
    (hc : c ∈ analyze_customers rows) :
    c.customerID ≠ "Unknown" ∧
      ∃ id ∈ rows.map (fun r => r.customerID), c = mkCustomerRow rows id := by
  unfold analyze_customers at hc
  have hc2 := (List.perm_insertionSort _ _).mem_iff.mp hc
  rcases List.mem_filter.mp hc2 with ⟨hc3, hne⟩
  rcases List.mem_map.mp hc3 with ⟨id, hid, hidc⟩
  refine ⟨of_decide_eq_true hne, id, (mem_distinct _ _).mp hid, hidc.symm⟩

/-- A malformed timestamp makes the whole parse fail. -/
theorem parseAll_eq_none_of_malformed (rows : List RawRow)
    (h : ∃ r ∈ rows, r.invoiceDate = none) : parseAll rows = none := by
  induction rows with
  | nil =>
    rcases h with ⟨r, hr, _⟩
    exact absurd hr (List.not_mem_nil r)
  | cons a rest ih =>
    rcases h with ⟨r, hr, hnone⟩
    rcases List.mem_cons.mp hr with rfl | hr2
    · simp [parseAll, fillRow, hnone]
    · have hrest := ih ⟨r, hr2, hnone⟩
      cases hfa : fillRow a <;> simp [parseAll, hfa, hrest]

/-- When every timestamp parses, `parseAll` succeeds and the result holds
exactly the filled rows. -/
theorem parseAll_eq_some_of_wellformed (rows : List RawRow)
    (h : ∀ r ∈ rows, r.invoiceDate ≠ none) :
    ∃ cs, parseAll rows = some cs ∧
      ∀ c, c ∈ cs ↔ ∃ r ∈ rows, fillRow r = some c := by
  induction rows with
  | nil => exact ⟨[], rfl, by simp⟩
  | cons a rest ih =>
    rcases ih (fun r hr => h r (List.mem_cons_of_mem a hr)) with ⟨cs, hcs, hmem⟩
    rcases Option.ne_none_iff_exists'.mp (h a (List.mem_cons_self a rest)) with
      ⟨d, hd⟩
    have hfa : ∃ c0, fillRow a = some c0 := by
      unfold fillRow
      rw [hd]
      exact ⟨_, rfl⟩
    rcases hfa with ⟨c0, hc0⟩
    refine ⟨c0 :: cs, by simp [parseAll, hc0, hcs], ?_⟩
    intro c
    simp only [List.mem_cons, hmem]
    constructor
    · rintro (rfl | ⟨r, hr, hfr⟩)
      · exact ⟨a, Or.inl rfl, hc0⟩
      · exact ⟨r, Or.inr hr, hfr⟩
    · rintro ⟨r, hr, hfr⟩
      rcases hr with rfl | hr2
      · rw [hc0] at hfr
        exact Or.inl (Option.some_inj.mp hfr).symm
      · exact Or.inr ⟨r, hr2, hfr⟩

/-- C9: the Cleaner fails the run whenever some timestamp is malformed; when
every timestamp parses it succeeds, and the output holds the cleaned input
rows with exact duplicates removed: no duplicate rows remain, the output is
a subsequence of the parsed rows, and a cleaned row is in the output exactly
when it comes from some input row. -/
theorem C9_cleaner_malformed_fatal (rows : List RawRow) :
    ((∃ r ∈ rows, r.invoiceDate = none) → clean_data rows = none) ∧
    ((∀ r ∈ rows, r.invoiceDate ≠ none) →
      ∃ cs, parseAll rows = some cs ∧
        clean_data rows = some (distinct cs) ∧
        (distinct cs).Nodup ∧
        List.Sublist (distinct cs) cs ∧
        (∀ c, c ∈ distinct cs ↔ c ∈ cs) ∧
        (∀ c, c ∈ distinct cs ↔ ∃ r ∈ rows, fillRow r = some c)) := by
  constructor
  · intro h
    unfold clean_data
    rw [parseAll_eq_none_of_malformed rows h]
    rfl
  · intro h
    rcases parseAll_eq_some_of_wellformed rows h with ⟨cs, hcs, hmem⟩
    refine ⟨cs, hcs, ?_, nodup_distinct cs, sublist_distinct cs,
      fun c => mem_distinct cs c,
      fun c => (mem_distinct cs c).trans (hmem c)⟩
    unfold clean_data
    rw [hcs]
    rfl

/-- A raw row whose timestamp the parser rejects. -/
def rawBad : RawRow :=
  { invoiceNo := "536365", stockCode := "85123A",
    description := some "WHITE HANGING HEART", quantity := 6,
    invoiceDate := none, unitPrice := 3, customerID := some "17850",
    country := "United Kingdom" }

/-- A raw row that cleans successfully. -/
def rawGood : RawRow :=
  { invoiceNo := "536366", stockCode := "71053",
    description := none, quantity := 2,
    invoiceDate := some 40, unitPrice := 4, customerID := none,
    country := "United Kingdom" }

theorem C9_witness :
    clean_data [rawBad] = none ∧
    (∃ cs, parseAll [rawGood, rawGood] = some cs ∧
      clean_data [rawGood, rawGood] = some (distinct cs) ∧
      (distinct cs).Nodup ∧
      List.Sublist (distinct cs) cs ∧
      (∀ c, c ∈ distinct cs ↔ c ∈ cs) ∧
      (∀ c, c ∈ distinct cs ↔ ∃ r ∈ [rawGood, rawGood], fillRow r = some c)) :=
  ⟨(C9_cleaner_malformed_fatal [rawBad]).1
      ⟨rawBad, List.mem_singleton_self rawBad, rfl⟩,
    (C9_cleaner_malformed_fatal [rawGood, rawGood]).2 (by
      intro r hr
      rcases List.mem_cons.mp hr with rfl | hr2
      · simp [rawGood]
      · rcases List.mem_cons.mp hr2 with rfl | hr3
        · simp [rawGood]
        · exact absurd hr3 (List.not_mem_nil r))⟩

/-- C2: for every row kept by the Quantity/Price Normalizer, `Sale_Qty` is
the quantity when positive and 0 otherwise, `Return_Qty` is the absolute
value of the quantity when negative and 0 otherwise; hence both are
non-negative, at most one is nonzero, and a zero quantity yields both
zero. -/
theorem C2_quantity_split (rows : List CleanRow) (n : NormRow)
    (hn : n ∈ handle_quantity_and_price rows) :
    n.sale_qty = (if 0 < n.quantity then n.quantity else 0) ∧
    n.return_qty = (if n.quantity < 0 then -n.quantity else 0) ∧
    0 ≤ n.sale_qty ∧ 0 ≤ n.return_qty ∧
    (n.sale_qty = 0 ∨ n.return_qty = 0) ∧
    (n.quantity = 0 → n.sale_qty = 0 ∧ n.return_qty = 0) := by
  rcases hq_shape rows n hn with ⟨r, hr, hp, rfl⟩
  have hs : (addPriceCols (addQtyCols r)).sale_qty =
      (if 0 < r.quantity then r.quantity else 0) := rfl
  have hrq : (addPriceCols (addQtyCols r)).return_qty =
      (if r.quantity < 0 then -r.quantity else 0) := rfl
  have hqq : (addPriceCols (addQtyCols r)).quantity = r.quantity := rfl
  rw [hs, hrq, hqq]
  refine ⟨rfl, rfl, ?_, ?_, ?_, ?_⟩ <;> split_ifs <;> omega

/-- One cleaned example transaction row. -/
def exClean (inv code cust : String) (q d : Int) (p : Rat) : CleanRow :=
  { invoiceNo := inv, stockCode := code, description := "Unknown Product",
    quantity := q, invoiceDate := d, unitPrice := p, customerID := cust,
    country := "United Kingdom" }

/-- A return row (quantity −3, unit price 5) as normalized. -/
def nW2 : NormRow := addPriceCols (addQtyCols (exClean "536365" "85123A" "17850" (-3) 0 5))

theorem C2_witness :
    nW2.sale_qty = (if 0 < nW2.quantity then nW2.quantity else 0) ∧
    nW2.return_qty = (if nW2.quantity < 0 then -nW2.quantity else 0) ∧
    0 ≤ nW2.sale_qty ∧ 0 ≤ nW2.return_qty ∧
    (nW2.sale_qty = 0 ∨ nW2.return_qty = 0) ∧
    (nW2.quantity = 0 → nW2.sale_qty = 0 ∧ nW2.return_qty = 0) :=
  C2_quantity_split [exClean "536365" "85123A" "17850" (-3) 0 5] nW2
    (by decide)

/-- C3: the Revenue Calculator adds `Revenue`, `Net_Revenue` and
`Total_Items` by pure row-wise arithmetic: the output is exactly the input
row list with the three fields appended, and on every output row
`Revenue = Sale_Qty * Paid_UnitPrice`,
`Net_Revenue = (Sale_Qty - Return_Qty) * Paid_UnitPrice` and
`Total_Items = Sale_Qty + Return_Qty`. -/
theorem C3_revenue_metrics (rows : List NormRow) :
    (calculate_revenue_metrics rows).map (fun x => x.toNormRow) = rows ∧
    ∀ x ∈ calculate_revenue_metrics rows,
      x.revenue = (x.sale_qty : Rat) * x.paid_unit_price ∧
      x.net_revenue =
        ((x.sale_qty : Rat) - (x.return_qty : Rat)) * x.paid_unit_price ∧
      x.total_items = x.sale_qty + x.return_qty := by
  constructor
  · unfold calculate_revenue_metrics
    rw [List.map_map]
    exact List.map_id' rows
  · intro x hx
    rcases List.mem_map.mp hx with ⟨n, hn, rfl⟩
    exact ⟨rfl, rfl, rfl⟩

/-- The same return row with revenue metrics. -/
def xW3 : RevRow := calcRow nW2

theorem C3_witness :
    xW3.revenue = (xW3.sale_qty : Rat) * xW3.paid_unit_price ∧
    xW3.net_revenue =
      ((xW3.sale_qty : Rat) - (xW3.return_qty : Rat)) * xW3.paid_unit_price ∧
    xW3.total_items = xW3.sale_qty + xW3.return_qty :=
  (C3_revenue_metrics [nW2]).2 xW3 (List.mem_singleton_self xW3)

/-- C4: the Quantity/Price Normalizer drops exactly the rows with negative
unit price: no output row has unit price below 0, and stripping the derived
columns from the output gives precisely the input rows with non-negative
unit price, in order. -/
theorem C4_negative_price_filter (rows : List CleanRow) :
    (∀ n ∈ handle_quantity_and_price rows, 0 ≤ n.unitPrice) ∧
    (handle_quantity_and_price rows).map (fun n => n.toQtyRow.toCleanRow) =
      rows.filter (fun r => decide (r.unitPrice ≥ 0)) := by
  constructor
  · intro n hn
    rcases hq_shape rows n hn with ⟨r, hr, hp, rfl⟩
    exact hp
  · rw [hq_eq, List.map_map]
    exact List.map_id' _

/-- A kept row with non-negative price as normalized. -/
def nW4 : NormRow := addPriceCols (addQtyCols (exClean "536367" "22752" "13047" 2 1 3))

theorem C4_witness :
    0 ≤ nW4.unitPrice ∧
    (handle_quantity_and_price
        [exClean "536000" "21730" "17850" 4 0 (-2),
         exClean "536367" "22752" "13047" 2 1 3]).map
      (fun n => n.toQtyRow.toCleanRow) =
      ([exClean "536000" "21730" "17850" 4 0 (-2),
        exClean "536367" "22752" "13047" 2 1 3].filter
        (fun r => decide (r.unitPrice ≥ 0))) :=
  ⟨(C4_negative_price_filter
      [exClean "536000" "21730" "17850" 4 0 (-2),
       exClean "536367" "22752" "13047" 2 1 3]).1 nW4 (by decide),
   (C4_negative_price_filter
      [exClean "536000" "21730" "17850" 4 0 (-2),
       exClean "536367" "22752" "13047" 2 1 3]).2⟩

/-- C8: on every kept row, `Paid_UnitPrice` is the unit price when strictly
positive and 0 otherwise, and `Is_Free_Item` is `"Yes"` exactly when the
unit price is 0; a free row contributes zero revenue and zero net revenue
whatever the sign of its quantity. -/
theorem C8_paid_price_free_item (rows : List CleanRow) (n : NormRow)
    (hn : n ∈ handle_quantity_and_price rows) :
    n.paid_unit_price = (if 0 < n.unitPrice then n.unitPrice else 0) ∧
    (n.is_free_item = "Yes" ↔ n.unitPrice = 0) ∧
    (n.unitPrice = 0 →
      (calcRow n).revenue = 0 ∧ (calcRow n).net_revenue = 0) := by
  rcases hq_shape rows n hn with ⟨r, hr, hp, rfl⟩
  have hpaid : (addPriceCols (addQtyCols r)).paid_unit_price =
      (if 0 < r.unitPrice then r.unitPrice else 0) := rfl
  have hfree : (addPriceCols (addQtyCols r)).is_free_item =
      (if r.unitPrice = 0 then "Yes" else "No") := rfl
  have hup : (addPriceCols (addQtyCols r)).unitPrice = r.unitPrice := rfl
  rw [hpaid, hfree, hup]
  refine ⟨rfl, ?_, ?_⟩
  · constructor
    · intro hy
      by_contra h0
      rw [if_neg h0] at hy
      exact (by decide : ¬("No" : String) = "Yes") hy
    · intro h0
      rw [if_pos h0]
  · intro h0
    have hz : (if 0 < r.unitPrice then r.unitPrice else 0) = 0 := by
      rw [h0]
      simp
    constructor
    · show (addPriceCols (addQtyCols r)).sale_qty *
        (if 0 < r.unitPrice then r.unitPrice else 0) = 0
      rw [hz, mul_zero]
    · show ((addPriceCols (addQtyCols r)).sale_qty -
          (addPriceCols (addQtyCols r)).return_qty : Rat) *
        (if 0 < r.unitPrice then r.unitPrice else 0) = 0
      rw [hz, mul_zero]

/-- A free-item row (unit price 0, negative quantity) as normalized. -/
def nW8 : NormRow := addPriceCols (addQtyCols (exClean "536368" "22423" "12583" (-2) 2 0))

theorem C8_witness :
    nW8.paid_unit_price = (if 0 < nW8.unitPrice then nW8.unitPrice else 0) ∧
    (nW8.is_free_item = "Yes" ↔ nW8.unitPrice = 0) ∧
    (nW8.unitPrice = 0 →
      (calcRow nW8).revenue = 0 ∧ (calcRow nW8).net_revenue = 0) :=
  C8_paid_price_free_item [exClean "536368" "22423" "12583" (-2) 2 0] nW8
    (by decide)

/-- C5: in the Customer Aggregator output, a customer whose sale quantity
totals to zero gets a null return rate (no division error), and otherwise
the return rate is total return quantity divided by total sale quantity. -/
theorem C5_return_rate_null (rows : List RevRow) (c : CustomerRow)
    (hc : c ∈ analyze_customers rows) :
    (c.total_sale_qty = 0 → c.return_rate = none) ∧
    (c.total_sale_qty ≠ 0 →
      c.return_rate =
        some ((c.total_return_qty : Rat) / (c.total_sale_qty : Rat))) := by
  rcases customers_shape rows c hc with ⟨-, id, -, rfl⟩
  have hsq : (mkCustomerRow rows id).total_sale_qty =
      ((rowsOfCustomer rows id).map (fun r => r.sale_qty)).sum := rfl
  have hrq : (mkCustomerRow rows id).total_return_qty =
      ((rowsOfCustomer rows id).map (fun r => r.return_qty)).sum := rfl
  have hrr : (mkCustomerRow rows id).return_rate =
      (if ((rowsOfCustomer rows id).map (fun r => r.sale_qty)).sum = 0 then
        none
       else
        some
          (((((rowsOfCustomer rows id).map (fun r => r.return_qty)).sum :
              Int) : Rat) /
            ((((rowsOfCustomer rows id).map (fun r => r.sale_qty)).sum :
              Int) : Rat))) := rfl
  rw [hsq, hrq, hrr]
  constructor
  · intro h0
    rw [if_pos h0]
  · intro h0
    rw [if_neg h0]

/-- Rows of a returns-only customer 12345 (sale quantity 0) and a mixed
customer 67890. -/
def rowsW5 : List RevRow :=
  calculate_revenue_metrics (handle_quantity_and_price
    [exClean "537001" "21731" "12345" (-2) 5 3,
     exClean "537002" "21732" "67890" 4 6 2,
     exClean "537003" "21732" "67890" (-1) 7 2])

/-- The aggregate of the returns-only customer. -/
def cW5 : CustomerRow := mkCustomerRow rowsW5 "12345"

/-- The aggregate of the mixed customer. -/
def cW5b : CustomerRow := mkCustomerRow rowsW5 "67890"

theorem C5_witness :
    cW5.return_rate = none ∧
    cW5b.return_rate =
      some ((cW5b.total_return_qty : Rat) / (cW5b.total_sale_qty : Rat)) :=
  ⟨(C5_return_rate_null rowsW5 cW5
        (of_decide_eq_true (by with_unfolding_all rfl))).1
      (by with_unfolding_all rfl),
   (C5_return_rate_null rowsW5 cW5b
        (of_decide_eq_true (by with_unfolding_all rfl))).2
      (by with_unfolding_all exact (fun h => absurd h (by decide)))⟩

/-- C6: the Customer Aggregator output has no row for the sentinel customer
"Unknown", yet the Unknown rows stay in the row set whose maximum timestamp
anchors recency: every output row's recency is the dataset-wide maximum
timestamp (over all rows, Unknown included) minus that customer's own
maximum timestamp. -/
theorem C6_unknown_excluded_recency (rows : List RevRow) (c : CustomerRow)
    (hc : c ∈ analyze_customers rows) :
    c.customerID ≠ "Unknown" ∧
    c.recency_days =
      maxDate (rows.map (fun r => r.invoiceDate)) -
        maxDate ((rowsOfCustomer rows c.customerID).map
          (fun r => r.invoiceDate)) := by
  rcases customers_shape rows c hc with ⟨hne, id, -, rfl⟩
  exact ⟨hne, rfl⟩

/-- Rows where the Unknown customer holds the latest timestamp (day 10);
the known customer 13047 last bought on day 4. -/
def rowsW6 : List RevRow :=
  calculate_revenue_metrics (handle_quantity_and_price
    [exClean "538001" "21733" "13047" 3 4 2,
     exClean "538002" "21734" "Unknown" 1 10 1])

/-- The aggregate of customer 13047. -/
def cW6 : CustomerRow := mkCustomerRow rowsW6 "13047"

theorem C6_witness :
    cW6.customerID ≠ "Unknown" ∧
    cW6.recency_days =
      maxDate (rowsW6.map (fun r => r.invoiceDate)) -
        maxDate ((rowsOfCustomer rowsW6 cW6.customerID).map
          (fun r => r.invoiceDate)) :=
  C6_unknown_excluded_recency rowsW6 cW6
    (of_decide_eq_true (by with_unfolding_all rfl))

/-- C10: a customer's value label is "Positive" exactly when the total net
revenue is strictly positive; a total of exactly zero is labeled
"Negative". -/
theorem C10_value_label (rows : List RevRow) (c : CustomerRow)
    (hc : c ∈ analyze_customers rows) :
    (c.customer_value = "Positive" ↔ 0 < c.total_net_revenue) ∧
    (c.total_net_revenue = 0 → c.customer_value = "Negative") := by
  rcases customers_shape rows c hc with ⟨-, id, -, rfl⟩
  have hv : (mkCustomerRow rows id).customer_value =
      (if 0 < (mkCustomerRow rows id).total_net_revenue then "Positive"
       else "Negative") := rfl
  constructor
  · constructor
    · intro hval
      by_contra hnot
      rw [hv, if_neg hnot] at hval
      exact (by decide : ¬("Negative" : String) = "Positive") hval
    · intro hpos
      rw [hv, if_pos hpos]
  · intro h0
    rw [hv, if_neg (by rw [h0]; exact lt_irrefl 0)]

/-- Rows of a customer whose only row is a free item, so the total net
revenue is exactly zero. -/
def rowsW10 : List RevRow :=
  calculate_revenue_metrics (handle_quantity_and_price
    [exClean "539001" "22001" "44444" 3 1 0])

/-- The aggregate of the zero-net-revenue customer. -/
def cW10 : CustomerRow := mkCustomerRow rowsW10 "44444"

theorem C10_witness :
    (cW10.customer_value = "Positive" ↔ 0 < cW10.total_net_revenue) ∧
    cW10.customer_value = "Negative" :=
  ⟨(C10_value_label rowsW10 cW10
        (of_decide_eq_true (by with_unfolding_all rfl))).1,
   (C10_value_label rowsW10 cW10
        (of_decide_eq_true (by with_unfolding_all rfl))).2
      (by with_unfolding_all rfl)⟩

/-- C7: the Product Aggregator excludes the fixed non-product codes before
either split: no non-product code ever appears in the top-profitable or
top-loss list, and the two counts are exactly the numbers of distinct
non-excluded products with summed net revenue strictly above, respectively
strictly below, zero (zero-sum products are in neither count). -/
theorem C7_non_product_exclusion (rows : List RevRow) :
    (∀ p ∈ (analyze_products rows).top_profitable,
      p.1 ∉ non_products_list) ∧
    (∀ p ∈ (analyze_products rows).top_losses, p.1 ∉ non_products_list) ∧
    (analyze_products rows).profitable_count =
      ((distinct (rows.map (fun r => r.stockCode))).filter
        (fun c => !(decide (c ∈ non_products_list)) &&
          decide (0 < sumNetRevenue rows c))).length ∧
    (analyze_products rows).loss_count =
      ((distinct (rows.map (fun r => r.stockCode))).filter
        (fun c => !(decide (c ∈ non_products_list)) &&
          decide (sumNetRevenue rows c < 0))).length := by
  have hreal : ∀ (s : String × Rat → Bool) (p : String × Rat),
      p ∈ ((revenue_per_product rows).filter
            (fun p => !(decide (p.1 ∈ non_products_list)))).filter s →
      p.1 ∉ non_products_list := by
    intro s p hp
    have h1 := (List.mem_filter.mp (List.mem_filter.mp hp).1).2
    simpa using h1
  have hcount : ∀ s : String × Rat → Bool,
      (((revenue_per_product rows).filter
          (fun p => !(decide (p.1 ∈ non_products_list)))).filter s).length =
        ((distinct (rows.map (fun r => r.stockCode))).filter
          (fun c => !(decide (c ∈ non_products_list)) &&
            s (c, sumNetRevenue rows c))).length := by
    intro s
    rw [List.filter_filter]
    unfold revenue_per_product
    rw [((List.perm_insertionSort
        (fun a b : String × Rat => b.2 ≤ a.2)
        ((distinct (rows.map (fun r => r.stockCode))).map
          (fun c => (c, sumNetRevenue rows c)))).filter
        (fun a => s a && !(decide (a.1 ∈ non_products_list)))).length_eq]
    rw [List.filter_map, List.length_map]
    exact congrArg List.length
      (List.filter_congr (fun c hc => Bool.and_comm _ _))
  refine ⟨?_, ?_, ?_, ?_⟩
  · intro p hp
    exact hreal (fun p => decide (p.2 > 0)) p (List.take_subset 10 _ hp)
  · intro p hp
    exact hreal (fun p => decide (p.2 < 0)) p (List.take_subset 10 _ hp)
  · exact hcount (fun p => decide (p.2 > 0))
  · exact hcount (fun p => decide (p.2 < 0))

/-- Rows where the non-product code BANK CHARGES has the largest positive
net revenue, next to one profitable and one loss-making real product. -/
def rowsW7 : List RevRow :=
  calculate_revenue_metrics (handle_quantity_and_price
    [exClean "540001" "BANK CHARGES" "17850" 2 0 3,
     exClean "540002" "84406B" "17850" 1 0 5,
     exClean "540003" "84029G" "13047" (-1) 0 2])

theorem C7_witness :
    ("84406B", (5 : Rat)).1 ∉ non_products_list ∧
    ("84029G", (-2 : Rat)).1 ∉ non_products_list ∧
    (analyze_products rowsW7).profitable_count =
      ((distinct (rowsW7.map (fun r => r.stockCode))).filter
        (fun c => !(decide (c ∈ non_products_list)) &&
          decide (0 < sumNetRevenue rowsW7 c))).length ∧
    (analyze_products rowsW7).loss_count =
      ((distinct (rowsW7.map (fun r => r.stockCode))).filter
        (fun c => !(decide (c ∈ non_products_list)) &&
          decide (sumNetRevenue rowsW7 c < 0))).length :=
  ⟨(C7_non_product_exclusion rowsW7).1 ("84406B", (5 : Rat))
      (of_decide_eq_true (by with_unfolding_all rfl)),
   (C7_non_product_exclusion rowsW7).2.1 ("84029G", (-2 : Rat))
      (of_decide_eq_true (by with_unfolding_all rfl)),
   (C7_non_product_exclusion rowsW7).2.2.1,
   (C7_non_product_exclusion rowsW7).2.2.2⟩

/-- A loss-only dataset with eleven products: product Pk has one returned
unit at unit price k, so its summed net revenue is −k. -/
def exC1rows : List RevRow :=
  calculate_revenue_metrics (handle_quantity_and_price
    [exClean "550001" "P01" "15311" (-1) 0 1,
     exClean "550002" "P02" "15311" (-1) 0 2,
     exClean "550003" "P03" "15311" (-1) 0 3,
     exClean "550004" "P04" "15311" (-1) 0 4,
     exClean "550005" "P05" "15311" (-1) 0 5,
     exClean "550006" "P06" "15311" (-1) 0 6,
     exClean "550007" "P07" "15311" (-1) 0 7,
     exClean "550008" "P08" "15311" (-1) 0 8,
     exClean "550009" "P09" "15311" (-1) 0 9,
     exClean "550010" "P10" "15311" (-1) 0 10,
     exClean "550011" "P11" "15311" (-1) 0 11])

/-- C1: evaluation showing the claim fails on the code.  With eleven loss
products of summed net revenue −1..−11, `top_losses` is the ten LEAST
negative products (−1..−10) in DESCENDING order (−1 first), and P11 — the
most negative product, summed net revenue −11 — is excluded, contrary to
the claimed "ten most negative, ordered ascending". -/
theorem C1_top_losses_code_bug :
    (analyze_products exC1rows).top_losses =
      [("P01", (-1 : Rat)), ("P02", -2), ("P03", -3), ("P04", -4),
       ("P05", -5), ("P06", -6), ("P07", -7), ("P08", -8), ("P09", -9),
       ("P10", -10)] ∧
    ("P11", (-11 : Rat)) ∉ (analyze_products exC1rows).top_losses ∧
    sumNetRevenue exC1rows "P11" = -11 ∧
    (analyze_products exC1rows).loss_count = 11 := by
  refine ⟨?_, ?_, ?_, ?_⟩
  · with_unfolding_all rfl
  · exact of_decide_eq_true (by with_unfolding_all rfl)
  · with_unfolding_all rfl
  · with_unfolding_all rfl
